import Mathlib

/-!
# Disk Board: sector-addressed disk access (`Libraries/DiskBoard/Disk.cpp`)

A shallow embedding of class `CDisk`.  Every member function of `CDisk` becomes a
function on an explicit object state.  The file object `m_pFile` (class
`CCoreFile`) and the device control call are not part of the sources: their
behaviour is a parameter (`CoreFileOps`), so that a statement proved for all
`ops` holds whatever the file does.

Conventions
* unsigned machine integers (`DWORD`, `UINT64`, `size_t`) are `Nat`, signed ones
  (`int`, `INT64`) are `Int`; every arithmetic result is reduced to its width;
* a reference or pointer out-parameter is passed in with its value on entry and
  returned with its value on exit;
* an operation returns `Except Fault _`: `Fault.divideByZero` is an integer
  division by zero, `Fault.nullPointer` a call through a null `m_pFile`;
* `ioTrace` records, oldest first, each call `CDisk` makes on the file object;
* the log sink `m_pLog` only receives messages and is left out.
-/

namespace DiskBoard

/-! ## Machine integers -/

/-- Value of an integer stored in a `DWORD` (32 bits, unsigned). -/
def toDWORD (x : Int) : Nat := (x % 2 ^ 32).toNat

/-- Value of an integer stored in a `UINT64`. -/
def toUINT64 (x : Int) : Nat := (x % 2 ^ 64).toNat

/-- Value of an integer stored in an `INT64` (two's complement). -/
def toINT64 (x : Int) : Int := (x + 2 ^ 63) % 2 ^ 64 - 2 ^ 63

/-- Value of an integer stored in an `int` (32 bits, two's complement). -/
def toINT32 (x : Int) : Int := (x + 2 ^ 31) % 2 ^ 32 - 2 ^ 31

/-! ## Platform constants used by `CDisk::OpenDisk` -/

def FILE_SHARE_READ : Nat := 0x00000001
def FILE_SHARE_WRITE : Nat := 0x00000002
def OPEN_EXISTING : Nat := 3
def FILE_FLAG_SEQUENTIAL_SCAN : Nat := 0x08000000
def FILE_FLAG_NO_BUFFERING : Nat := 0x20000000

/-! ## Data model -/

/-- The platform structure `DISK_GEOMETRY`; `Cylinders` is a signed 64-bit
`LARGE_INTEGER`, the other fields are `DWORD`s. -/
structure DISK_GEOMETRY where
  Cylinders : Int
  MediaType : Nat
  TracksPerCylinder : Nat
  SectorsPerTrack : Nat
  BytesPerSector : Nat
deriving DecidableEq, Repr

/-- Result of `ZeroMemory(&m_cDiskGeometry, sizeof(m_cDiskGeometry))`. -/
def DISK_GEOMETRY.zero : DISK_GEOMETRY :=
  { Cylinders := 0, MediaType := 0, TracksPerCylinder := 0, SectorsPerTrack := 0,
    BytesPerSector := 0 }

/-- Run-time faults of the C++ code. -/
inductive Fault where
  | divideByZero
  | nullPointer
deriving DecidableEq, Repr

/-- A call made by `CDisk` on the file object or on the device behind it. -/
inductive FileCall where
  | CloseFile
  | CreateFile (pszDisk : String) (dwFlags dwShare dwDisposition dwAttributes : Nat)
  | DeviceIoControl
  | ReadFile (nBytes : Nat)
  | GetFilePointer
  | SetFilePointer (i64Pos : Int)
deriving DecidableEq, Repr

/-- Behaviour of the file object `m_pFile` (class `CCoreFile`) and of the device
control call, as functions of the file's state `σ`.  These are not part of the
sources and are taken as a parameter.

* `ReadFile nBytes out s`: result code, bytes-read output, new state;
* `GetFilePointer out s`, `SetFilePointer pos out s`: success, position output,
  new state;
* `DeviceIoControl buf s`: success, contents of the geometry buffer, new state. -/
structure CoreFileOps (σ : Type) where
  IsFileOpen : σ → Bool
  CloseFile : σ → Bool × σ
  CreateFile : String → Nat → Nat → Nat → Nat → σ → Int × σ
  DeviceIoControl : DISK_GEOMETRY → σ → Bool × DISK_GEOMETRY × σ
  ReadFile : Nat → Nat → σ → Int × Nat × σ
  GetFilePointer : Int → σ → Bool × Int × σ
  SetFilePointer : Int → Int → σ → Bool × Int × σ

/-- State of a `CDisk` object.  `m_pFile = none` is a null pointer. -/
structure CDisk (σ : Type) where
  m_pFile : Option σ
  m_nDiskNumber : Int
  m_ui64StartSector : Nat
  m_ui64DiskSize : Nat
  m_cDiskGeometry : DISK_GEOMETRY
  ioTrace : List FileCall
deriving DecidableEq

/-- The constructors `CDisk::CDisk()` and `CDisk::CDisk(CAbstractLog*)`, given the
state of the freshly allocated file object. -/
def CDisk.new {σ : Type} (file : σ) : CDisk σ :=
  { m_pFile := some file, m_nDiskNumber := -1, m_ui64StartSector := 0,
    m_ui64DiskSize := 0, m_cDiskGeometry := DISK_GEOMETRY.zero, ioTrace := [] }

variable {σ : Type}

/-! ## Operations of `CDisk` -/

/-- `CDisk::IsDiskExists`. -/
def IsDiskExists (ops : CoreFileOps σ) (d : CDisk σ) : Bool :=
  match d.m_pFile with
  | some f => ops.IsFileOpen f
  | none => false

/-- `CDisk::OpenDisk(LPCTSTR pszDisk, DWORD dwFlags)`; `pszDisk = none` is a null
pointer. -/
def OpenDiskName (ops : CoreFileOps σ) (d : CDisk σ) (pszDisk : Option String)
    (dwFlags : Nat) : Except Fault (Int × CDisk σ) :=
  match pszDisk with
  | none => .ok (-1, d)
  | some name =>
    if name.length = 0 then .ok (-1, d)
    else
      -- Close already open disk.
      let d1 : CDisk σ :=
        match d.m_pFile with
        | some f =>
          if ops.IsFileOpen f then
            { d with m_pFile := some (ops.CloseFile f).2,
                     ioTrace := d.ioTrace ++ [FileCall.CloseFile] }
          else d
        | none => d
      -- Try to open the disk.
      match d1.m_pFile with
      | none => .error Fault.nullPointer
      | some f =>
        let share := FILE_SHARE_READ ||| FILE_SHARE_WRITE
        let attrs := FILE_FLAG_SEQUENTIAL_SCAN ||| FILE_FLAG_NO_BUFFERING
        let r := ops.CreateFile name dwFlags share OPEN_EXISTING attrs f
        let d2 : CDisk σ :=
          { d1 with m_pFile := some r.2,
                    ioTrace := d1.ioTrace ++
                      [FileCall.CreateFile name dwFlags share OPEN_EXISTING attrs] }
        if r.1 < 0 then .ok (-1, d2)
        else
          let g := ops.DeviceIoControl d2.m_cDiskGeometry r.2
          .ok (0, { d2 with m_pFile := some g.2.2, m_cDiskGeometry := g.2.1,
                            ioTrace := d2.ioTrace ++ [FileCall.DeviceIoControl] })

/-- The device name built by `csDisk.Format(_T("\\\\.\\PHYSICALDRIVE%d"), nDisk)`:
the `%d` conversion prints its argument as an `int`. -/
def physicalDriveName (nDisk : Nat) : String :=
  "\\\\.\\PHYSICALDRIVE" ++ toString (toINT32 nDisk)

/-- `CDisk::OpenDisk(size_t nDisk, DWORD dwFlags)`.  The constant
`MAX_DRIVE_SUPPORT` is defined outside the sources and is a parameter. -/
def OpenDiskIndex (ops : CoreFileOps σ) (MAX_DRIVE_SUPPORT : Nat) (d : CDisk σ)
    (nDisk : Nat) (dwFlags : Nat) : Except Fault (Int × CDisk σ) :=
  if nDisk > MAX_DRIVE_SUPPORT then
    -- we are not supporting such a big number.
    .ok (-1, d)
  else
    OpenDiskName ops { d with m_nDiskNumber := toINT32 nDisk }
      (some (physicalDriveName nDisk)) dwFlags

/-- `CDisk::GetDiskPointer(INT64& i64DiskPos)`: result and the value of
`i64DiskPos` on exit. -/
def GetDiskPointer (ops : CoreFileOps σ) (d : CDisk σ) (i64DiskPos : Int) :
    Except Fault (Int × Int × CDisk σ) :=
  match d.m_pFile with
  | none => .ok (-1, i64DiskPos, d)
  | some f =>
    if !ops.IsFileOpen f then .ok (-1, i64DiskPos, d)
    else
      let r := ops.GetFilePointer i64DiskPos f
      .ok (if r.1 then 0 else -1, r.2.1,
           { d with m_pFile := some r.2.2,
                    ioTrace := d.ioTrace ++ [FileCall.GetFilePointer] })

/-- `CDisk::SetDiskPointer(INT64 i64DiskPos, INT64& i64NewPos)`: result and the
value of `i64NewPos` on exit. -/
def SetDiskPointer (ops : CoreFileOps σ) (d : CDisk σ) (i64DiskPos : Int)
    (i64NewPos : Int) : Except Fault (Int × Int × CDisk σ) :=
  match d.m_pFile with
  | none => .ok (-1, i64NewPos, d)
  | some f =>
    if !ops.IsFileOpen f then .ok (-1, i64NewPos, d)
    else
      -- Set the new sector number from the start of drive.
      let p1 := toINT64 (i64DiskPos * d.m_cDiskGeometry.BytesPerSector)
      let p2 := toINT64 (p1 + d.m_ui64StartSector)
      let r := ops.SetFilePointer p2 i64NewPos f
      let d1 : CDisk σ :=
        { d with m_pFile := some r.2.2,
                 ioTrace := d.ioTrace ++ [FileCall.SetFilePointer p2] }
      if d.m_cDiskGeometry.BytesPerSector = 0 then .error Fault.divideByZero
      else
        let n1 := Int.tdiv r.2.1 d.m_cDiskGeometry.BytesPerSector
        let n2 := toINT64 (n1 - d.m_ui64StartSector)
        .ok (if r.1 then 0 else -1, n2, d1)

/-- `CDisk::OpenDisk(UINT64 ui64Offset, UINT64 ui64Length, size_t nDisk, DWORD dwFlags)`. -/
def OpenDiskWindow (ops : CoreFileOps σ) (MAX_DRIVE_SUPPORT : Nat) (d : CDisk σ)
    (ui64Offset ui64Length : Nat) (nDisk : Nat) (dwFlags : Nat) :
    Except Fault (Int × CDisk σ) :=
  match OpenDiskIndex ops MAX_DRIVE_SUPPORT d nDisk dwFlags with
  | .error e => .error e
  | .ok (nRes, d1) =>
    if nRes = 0 then
      let d2 : CDisk σ :=
        { d1 with m_ui64StartSector := ui64Offset, m_ui64DiskSize := ui64Length }
      match SetDiskPointer ops d2 0 0 with
      | .error e => .error e
      | .ok (r, i64NewPos, d3) =>
        if r < 0 then .ok (-1, d3)
        else .ok (if i64NewPos = 0 then nRes else -1, d3)
    else .ok (nRes, d1)

/-- `CDisk::CloseDisk`. -/
def CloseDisk (ops : CoreFileOps σ) (d : CDisk σ) : Int × CDisk σ :=
  match d.m_pFile with
  | none => (0, d)
  | some f =>
    if ops.IsFileOpen f then
      let r := ops.CloseFile f
      (if r.1 then 0 else -1,
       { d with m_pFile := some r.2, ioTrace := d.ioTrace ++ [FileCall.CloseFile] })
    else (0, d)

/-- `CDisk::ReadDisk(BYTE* pBuffer, DWORD dwSectorsToRead, DWORD& dwSectorsRead)`:
result and the value of `dwSectorsRead` on exit.  The contents of the buffer
are not modelled. -/
def ReadDisk (ops : CoreFileOps σ) (d : CDisk σ) (dwSectorsToRead : Nat)
    (dwSectorsRead : Nat) : Except Fault (Int × Nat × CDisk σ) :=
  match d.m_pFile with
  | none => .ok (-1, dwSectorsRead, d)
  | some f =>
    if !ops.IsFileOpen f then .ok (-1, dwSectorsRead, d)
    else
      match GetDiskPointer ops d 0 with
      | .error e => .error e
      | .ok (r, i64DiskPos, d1) =>
        if r < 0 then .ok (-1, dwSectorsRead, d1)
        else if d1.m_ui64DiskSize ≠ 0 ∧
            toUINT64 (toINT64 (i64DiskPos + dwSectorsRead)) > d1.m_ui64DiskSize then
          .ok (-1, dwSectorsRead, d1)
        else
          match d1.m_pFile with
          | none => .error Fault.nullPointer
          | some f1 =>
            let nBytes := toDWORD (dwSectorsToRead * d1.m_cDiskGeometry.BytesPerSector)
            let rd := ops.ReadFile nBytes dwSectorsRead f1
            let d2 : CDisk σ :=
              { d1 with m_pFile := some rd.2.2,
                        ioTrace := d1.ioTrace ++ [FileCall.ReadFile nBytes] }
            if d1.m_cDiskGeometry.BytesPerSector = 0 then .error Fault.divideByZero
            else .ok (rd.1, rd.2.1 / d1.m_cDiskGeometry.BytesPerSector, d2)

/-- `CDisk::ReadDisk(BYTE* pBuffer, UINT64 ui64Sector, DWORD dwSectorsToRead,
DWORD& dwSectorsRead)`. -/
def ReadDiskAt (ops : CoreFileOps σ) (d : CDisk σ) (ui64Sector : Nat)
    (dwSectorsToRead : Nat) (dwSectorsRead : Nat) : Except Fault (Int × Nat × CDisk σ) :=
  match SetDiskPointer ops d (toINT64 ui64Sector) 0 with
  | .error e => .error e
  | .ok (r, i64NewPos, d1) =>
    if r < 0 then .ok (-1, dwSectorsRead, d1)
    else if ui64Sector ≠ toUINT64 i64NewPos then .ok (-1, dwSectorsRead, d1)
    else ReadDisk ops d1 dwSectorsToRead dwSectorsRead

/-- `CDisk::WriteDisk(const BYTE*, DWORD dwSectorsToWrite, DWORD& dwSectorsWritten)`. -/
def WriteDisk (d : CDisk σ) (_dwSectorsToWrite : Nat) (dwSectorsWritten : Nat) :
    Int × Nat × CDisk σ :=
  (-1, dwSectorsWritten, d)

/-- `CDisk::WriteDisk(const BYTE*, UINT64 ui64Sector, DWORD dwSectorsToWritten,
DWORD& dwSectorsWritten)`. -/
def WriteDiskAt (d : CDisk σ) (_ui64Sector : Nat) (_dwSectorsToWritten : Nat)
    (dwSectorsWritten : Nat) : Int × Nat × CDisk σ :=
  (-1, dwSectorsWritten, d)

/-- `CDisk::FlushDisk`. -/
def FlushDisk (d : CDisk σ) : Int × CDisk σ := (-1, d)

/-- `CDisk::LockDisk()`. -/
def LockDisk (d : CDisk σ) : Int × CDisk σ := (-1, d)

/-- `CDisk::LockDisk(size_t nDisk)`. -/
def LockDiskIndex (d : CDisk σ) (_nDisk : Nat) : Int × CDisk σ := (-1, d)

/-- `CDisk::UnlockDisk()`. -/
def UnlockDisk (d : CDisk σ) : Int × CDisk σ := (-1, d)

/-- `CDisk::UnlockDisk(size_t nDisk)`. -/
def UnlockDiskIndex (d : CDisk σ) (_nDisk : Nat) : Int × CDisk σ := (-1, d)

/-- `CDisk::GetTotalSectors(INT64* p64Sectors) const`: result and the value behind
`p64Sectors` on exit (`none` is a null pointer). -/
def GetTotalSectors (ops : CoreFileOps σ) (d : CDisk σ) (p64Sectors : Option Int) :
    Bool × Option Int :=
  if !IsDiskExists ops d ∨ d.m_cDiskGeometry.BytesPerSector = 0 then (false, p64Sectors)
  else
    let ui64NumSecs :=
      toUINT64 (toUINT64 (toUINT64 d.m_cDiskGeometry.Cylinders *
        d.m_cDiskGeometry.TracksPerCylinder) * d.m_cDiskGeometry.SectorsPerTrack)
    if ((ui64NumSecs >>> 32) &&& 0xFFFFFFFF) ≠ 0 then (false, p64Sectors)
    else
      match p64Sectors with
      | some _ => (true, some (toINT64 ui64NumSecs))
      | none => (true, none)

/-- `CDisk::GetSectorSize(size_t* pBytesPerSector) const`. -/
def GetSectorSize (ops : CoreFileOps σ) (d : CDisk σ) (pBytesPerSector : Option Nat) :
    Bool × Option Nat :=
  (IsDiskExists ops d,
   match pBytesPerSector with
   | some _ => some d.m_cDiskGeometry.BytesPerSector
   | none => none)

/-- `CDisk::GetDiskNumber(int* pDiskNumber) const`. -/
def GetDiskNumber (d : CDisk σ) (pDiskNumber : Option Int) : Bool × Option Int :=
  (true,
   match pDiskNumber with
   | some _ => some d.m_nDiskNumber
   | none => none)

/-! ## An idealised device, for evaluating the operations on concrete inputs -/

/-- State of an idealised file: whether it is open, and its byte position. -/
structure SimFile where
  isOpen : Bool
  pointer : Int
deriving DecidableEq, Repr

/-- An idealised file: opening always succeeds and rewinds, a seek moves to the
requested byte and reports it, a read delivers every requested byte and
advances the position by as many, and the geometry query answers `geometry`
(or fails and leaves the buffer alone when `geometry = none`). -/
def simOps (geometry : Option DISK_GEOMETRY) : CoreFileOps SimFile :=
  { IsFileOpen := fun s => s.isOpen
    CloseFile := fun s => (true, { s with isOpen := false })
    CreateFile := fun _ _ _ _ _ _ => (0, { isOpen := true, pointer := 0 })
    DeviceIoControl := fun buf s =>
      match geometry with
      | some g => (true, g, s)
      | none => (false, buf, s)
    ReadFile := fun nBytes _ s => (0, nBytes, { s with pointer := s.pointer + nBytes })
    GetFilePointer := fun _ s => (true, s.pointer, s)
    SetFilePointer := fun pos _ s => (true, pos, { s with pointer := pos }) }

/-- A geometry with the given sector size (the other fields are those of a
disk of about 1 GB with 512-byte sectors). -/
def simGeometry (bytesPerSector : Nat) : DISK_GEOMETRY :=
  { Cylinders := 130, MediaType := 12, TracksPerCylinder := 255, SectorsPerTrack := 63,
    BytesPerSector := bytesPerSector }

/-- A freshly constructed `CDisk` over a closed idealised file. -/
def simDisk : CDisk SimFile := CDisk.new { isOpen := false, pointer := 0 }

/-- The access flag `GENERIC_READ`. -/
def GENERIC_READ : Nat := 0x80000000

/-- A geometry whose exact sector count is `2 ^ 32 * 2 ^ 16 * 2 ^ 16 = 2 ^ 64`. -/
def hugeGeometry : DISK_GEOMETRY :=
  { Cylinders := 4294967296, MediaType := 12, TracksPerCylinder := 65536,
    SectorsPerTrack := 65536, BytesPerSector := 512 }

/-! ## Sequences of calls to the unsupported operations -/

/-- A call to one of the seven operations that the base device does not
support, with its arguments. -/
inductive StubCall where
  | WriteDisk (dwSectorsToWrite : Nat)
  | WriteDiskAt (ui64Sector : Nat) (dwSectorsToWritten : Nat)
  | FlushDisk
  | LockDisk
  | LockDiskIndex (nDisk : Nat)
  | UnlockDisk
  | UnlockDiskIndex (nDisk : Nat)
deriving DecidableEq, Repr

/-- Perform one call; `out` is the caller's output count (`dwSectorsWritten`),
which only the two `WriteDisk` overloads receive. -/
def StubCall.run (c : StubCall) (d : CDisk σ) (out : Nat) : Int × Nat × CDisk σ :=
  match c with
  | .WriteDisk n => DiskBoard.WriteDisk d n out
  | .WriteDiskAt sec n => DiskBoard.WriteDiskAt d sec n out
  | .FlushDisk => ((DiskBoard.FlushDisk d).1, out, (DiskBoard.FlushDisk d).2)
  | .LockDisk => ((DiskBoard.LockDisk d).1, out, (DiskBoard.LockDisk d).2)
  | .LockDiskIndex n => ((DiskBoard.LockDiskIndex d n).1, out, (DiskBoard.LockDiskIndex d n).2)
  | .UnlockDisk => ((DiskBoard.UnlockDisk d).1, out, (DiskBoard.UnlockDisk d).2)
  | .UnlockDiskIndex n =>
    ((DiskBoard.UnlockDiskIndex d n).1, out, (DiskBoard.UnlockDiskIndex d n).2)

/-- Perform a sequence of calls one after the other, collecting the results. -/
def runStubs : List StubCall → CDisk σ → Nat → List Int × Nat × CDisk σ
  | [], d, out => ([], out, d)
  | c :: cs, d, out =>
    let r := c.run d out
    let rest := runStubs cs r.2.2 r.2.1
    (r.1 :: rest.1, rest.2)

/-- State of the idealised disk 0 after `OpenDisk(0, GENERIC_READ)` when the
geometry query answers `g`. -/
def simOpened (g : DISK_GEOMETRY) : CDisk SimFile :=
  { m_pFile := some { isOpen := true, pointer := 0 }, m_nDiskNumber := 0,
    m_ui64StartSector := 0, m_ui64DiskSize := 0, m_cDiskGeometry := g,
    ioTrace := [FileCall.CreateFile "\\\\.\\PHYSICALDRIVE0" GENERIC_READ 3 3 0x28000000,
                FileCall.DeviceIoControl] }

/-- State of the idealised disk 0 with 512-byte sectors after the windowed
`OpenDisk(2048, 204800, 0, GENERIC_READ)`. -/
def simMisaligned : CDisk SimFile :=
  { m_pFile := some { isOpen := true, pointer := 2048 }, m_nDiskNumber := 0,
    m_ui64StartSector := 2048, m_ui64DiskSize := 204800, m_cDiskGeometry := simGeometry 512,
    ioTrace := [FileCall.CreateFile "\\\\.\\PHYSICALDRIVE0" GENERIC_READ 3 3 0x28000000,
                FileCall.DeviceIoControl, FileCall.SetFilePointer 2048] }

theorem toINT64_of_nonneg (x : Int) (h0 : 0 ≤ x) (h1 : x < 2 ^ 63) : toINT64 x = x := by
  unfold toINT64
  omega

/-- For a window start `0 < offset < 2 ^ 63` and at least two bytes per sector, the
sector number `offset / bps` is strictly below `offset`. -/
theorem div_sub_self_neg (offset bps : Nat) (h0 : 0 < offset) (h2 : 2 ≤ bps) :
    (offset : Int) / (bps : Int) - (offset : Int) < 0 := by
  have h : offset / bps < offset := Nat.div_lt_self h0 h2
  have hc : ((offset / bps : Nat) : Int) = (offset : Int) / (bps : Int) := Int.natCast_div _ _
  omega

theorem toUINT64_of_lt (n : Nat) (h : n < 2 ^ 64) : toUINT64 (n : Int) = n := by
  unfold toUINT64
  omega

/-- The overflow test of `GetTotalSectors` on a 64-bit value: the high word is
not zero exactly when the value is `2 ^ 32` or more. -/
theorem high_word_ne_zero (n : Nat) (h0 : 2 ^ 32 ≤ n) (h1 : n < 2 ^ 64) :
    ((n >>> 32) &&& 0xFFFFFFFF) ≠ 0 := by
  have hm : (n >>> 32) &&& 0xFFFFFFFF = (n >>> 32) % 2 ^ 32 :=
    Nat.and_pow_two_sub_one_eq_mod (n >>> 32) 32
  rw [hm, Nat.shiftRight_eq_div_pow]
  omega

/-- Scope of the overflow test of `GetTotalSectors`: when the exact sector count
exceeds `2 ^ 32 - 1` but is below `2 ^ 64`, the function returns FALSE and
leaves its output alone. -/
theorem GetTotalSectors_rejects_unwrapped_overflow (ops : CoreFileOps σ) (d : CDisk σ)
    (p64Sectors : Option Int)
    (hgt : toUINT64 d.m_cDiskGeometry.Cylinders * d.m_cDiskGeometry.TracksPerCylinder
      * d.m_cDiskGeometry.SectorsPerTrack > 2 ^ 32 - 1)
    (hlt : toUINT64 d.m_cDiskGeometry.Cylinders * d.m_cDiskGeometry.TracksPerCylinder
      * d.m_cDiskGeometry.SectorsPerTrack < 2 ^ 64) :
    GetTotalSectors ops d p64Sectors = (false, p64Sectors) := by
  unfold GetTotalSectors
  split
  · rfl
  · have hs : 0 < d.m_cDiskGeometry.SectorsPerTrack := by
      rcases Nat.eq_zero_or_pos d.m_cDiskGeometry.SectorsPerTrack with h | h
      · rw [h, Nat.mul_zero] at hgt
        exact absurd hgt (by decide)
      · exact h
    have h1 : toUINT64 d.m_cDiskGeometry.Cylinders * d.m_cDiskGeometry.TracksPerCylinder
        < 2 ^ 64 :=
      Nat.lt_of_le_of_lt (Nat.le_mul_of_pos_right _ hs) hlt
    have e1 : toUINT64 ((toUINT64 d.m_cDiskGeometry.Cylinders : Int)
        * (d.m_cDiskGeometry.TracksPerCylinder : Int))
        = toUINT64 d.m_cDiskGeometry.Cylinders * d.m_cDiskGeometry.TracksPerCylinder := by
      rw [← Int.natCast_mul]
      exact toUINT64_of_lt _ h1
    have e2 : toUINT64 ((toUINT64 ((toUINT64 d.m_cDiskGeometry.Cylinders : Int)
        * (d.m_cDiskGeometry.TracksPerCylinder : Int)) : Int)
        * (d.m_cDiskGeometry.SectorsPerTrack : Int))
        = toUINT64 d.m_cDiskGeometry.Cylinders * d.m_cDiskGeometry.TracksPerCylinder
          * d.m_cDiskGeometry.SectorsPerTrack := by
      rw [e1, ← Int.natCast_mul]
      exact toUINT64_of_lt _ hlt
    simp only [e2]
    rw [if_pos (high_word_ne_zero _ (by omega) hlt)]

/-! ## Evaluation of the operations on the idealised device -/

/-- C1: on a disk opened with the window `(0, 204800)` and 512-byte sectors, after
100 sectors were read (relative position 100) a request for 204800 more
sectors, with the output variable holding 0 on entry, is not refused although
`100 + 204800 > 204800`: `ReadDisk` returns 0 and issues a read of
`204800 * 512 = 104857600` bytes, because the boundary test adds the output
variable `dwSectorsRead`, not the requested count, to the position. -/
theorem ReadDisk_beyond_window_issues_read :
    ∃ d1 d2 d3 : CDisk SimFile,
      OpenDiskWindow (simOps (some (simGeometry 512))) 25 simDisk 0 204800 0 GENERIC_READ
        = .ok (0, d1) ∧
      d1.m_ui64DiskSize = 204800 ∧
      ReadDisk (simOps (some (simGeometry 512))) d1 100 0 = .ok (0, 100, d2) ∧
      ReadDisk (simOps (some (simGeometry 512))) d2 204800 0 = .ok (0, 204800, d3) ∧
      d3.ioTrace = d2.ioTrace ++ [FileCall.GetFilePointer, FileCall.ReadFile 104857600] ∧
      d3.m_pFile = some { isOpen := true, pointer := 104908800 } :=
  ⟨_, _, _, rfl, rfl, rfl, rfl, rfl, rfl⟩

/-- C2: with window start 2048 and 512-byte sectors, `SetDiskPointer(0, newPos)`
positions the file at byte 2048, not at byte `2048 * 512 = 1048576`: the window
start is added to the byte offset without being multiplied by the sector
size.  The relative position returned is `2048 / 512 - 2048 = -2044`. -/
theorem SetDiskPointer_adds_unscaled_window_start :
    ∃ d1 d2 : CDisk SimFile,
      OpenDiskWindow (simOps (some (simGeometry 512))) 25 simDisk 2048 204800 0 GENERIC_READ
        = .ok (-1, d1) ∧
      d1.m_ui64StartSector = 2048 ∧ d1.m_cDiskGeometry.BytesPerSector = 512 ∧
      SetDiskPointer (simOps (some (simGeometry 512))) d1 0 0 = .ok (0, -2044, d2) ∧
      d2.ioTrace = d1.ioTrace ++ [FileCall.SetFilePointer 2048] ∧
      d2.m_pFile = some { isOpen := true, pointer := 2048 } :=
  ⟨_, _, rfl, rfl, rfl, rfl, rfl, rfl⟩

/-- C4: on a disk opened with the window `(0, 204800)` and 512-byte sectors, at
relative position 0, a read of 100 sectors (a) with the output variable
holding 0 on entry succeeds and reports 100 sectors, but `GetDiskPointer` then
reports 51200 (bytes), not 100; and (b) with the output variable holding 204801
on entry is refused with -1 before any read, although `0 + 100 ≤ 204800`. -/
theorem ReadDisk_inside_window_position_and_refusal :
    ∃ d1 d2 d3 d4 : CDisk SimFile,
      OpenDiskWindow (simOps (some (simGeometry 512))) 25 simDisk 0 204800 0 GENERIC_READ
        = .ok (0, d1) ∧
      ReadDisk (simOps (some (simGeometry 512))) d1 100 0 = .ok (0, 100, d2) ∧
      GetDiskPointer (simOps (some (simGeometry 512))) d2 0 = .ok (0, 51200, d3) ∧
      ReadDisk (simOps (some (simGeometry 512))) d1 100 204801 = .ok (-1, 204801, d4) ∧
      d4.ioTrace = d1.ioTrace ++ [FileCall.GetFilePointer] :=
  ⟨_, _, _, _, rfl, rfl, rfl, rfl, rfl⟩

/-- C5: for the geometry `2 ^ 32` cylinders, `2 ^ 16` tracks per cylinder and
`2 ^ 16` sectors per track the exact product is `2 ^ 64 > 2 ^ 32 - 1`, yet
`GetTotalSectors` returns TRUE and writes the wrapped value 0 to its output. -/
theorem GetTotalSectors_accepts_wrapped_product :
    ∃ d1 : CDisk SimFile,
      OpenDiskIndex (simOps (some hugeGeometry)) 25 simDisk 0 GENERIC_READ = .ok (0, d1) ∧
      d1.m_cDiskGeometry = hugeGeometry ∧
      hugeGeometry.Cylinders * hugeGeometry.TracksPerCylinder * hugeGeometry.SectorsPerTrack
        > 2 ^ 32 - 1 ∧
      GetTotalSectors (simOps (some hugeGeometry)) d1 (some 7) = (true, some 0) :=
  ⟨_, rfl, rfl, by decide, rfl⟩

/-- C8: a disk whose geometry query failed is open with `BytesPerSector = 0`;
`SetDiskPointer` and `ReadDisk` on it do not return a failure value but divide
by zero (after the seek, respectively the read, was issued). -/
theorem SetDiskPointer_ReadDisk_divide_by_zero :
    ∃ d1 : CDisk SimFile,
      OpenDiskIndex (simOps none) 25 simDisk 0 GENERIC_READ = .ok (0, d1) ∧
      IsDiskExists (simOps none) d1 = true ∧
      d1.m_cDiskGeometry.BytesPerSector = 0 ∧
      SetDiskPointer (simOps none) d1 0 0 = .error Fault.divideByZero ∧
      ReadDisk (simOps none) d1 1 0 = .error Fault.divideByZero :=
  ⟨_, rfl, rfl, rfl, rfl, rfl⟩

/-! ## Properties that hold for every file behaviour -/

/-- C7: for every disk index above `MAX_DRIVE_SUPPORT` and every flag value,
`OpenDisk(nDisk, flags)` returns -1 and leaves the whole object state as it
was: disk number, window, geometry, file, and the record of calls made on the
file (so no open was attempted). -/
theorem OpenDiskIndex_rejects_large_index (ops : CoreFileOps σ) (MAX_DRIVE_SUPPORT : Nat)
    (d : CDisk σ) (nDisk dwFlags : Nat) (h : nDisk > MAX_DRIVE_SUPPORT) :
    OpenDiskIndex ops MAX_DRIVE_SUPPORT d nDisk dwFlags = .ok (-1, d) := by
  unfold OpenDiskIndex
  rw [if_pos h]

theorem OpenDiskIndex_rejects_large_index_witness :
    26 > 25 ∧
      OpenDiskIndex (simOps (some (simGeometry 512))) 25 simDisk 26 GENERIC_READ
        = .ok (-1, simDisk) :=
  ⟨by decide, OpenDiskIndex_rejects_large_index _ 25 simDisk 26 GENERIC_READ (by decide)⟩

/-- C9: in every object state and for every argument, each of the two
`WriteDisk` overloads, `FlushDisk`, the two `LockDisk` overloads and the two
`UnlockDisk` overloads returns -1 and leaves the object state and the output
count unchanged; hence every sequence of such calls returns only -1 and ends
in the state it started from, with the same record of file calls (in which a
write cannot even be expressed). -/
theorem unsupported_operations_fail_and_preserve_state (d : CDisk σ) (out : Nat) :
    (∀ n, WriteDisk d n out = (-1, out, d)) ∧
    (∀ sec n, WriteDiskAt d sec n out = (-1, out, d)) ∧
    FlushDisk d = (-1, d) ∧
    LockDisk d = (-1, d) ∧
    (∀ n, LockDiskIndex d n = (-1, d)) ∧
    UnlockDisk d = (-1, d) ∧
    (∀ n, UnlockDiskIndex d n = (-1, d)) ∧
    (∀ calls : List StubCall,
      runStubs calls d out = (List.replicate calls.length (-1), out, d)) := by
  refine ⟨fun _ => rfl, fun _ _ => rfl, rfl, rfl, fun _ => rfl, rfl, fun _ => rfl, ?_⟩
  intro calls
  induction calls with
  | nil => rfl
  | cons c cs ih =>
    have hc : c.run d out = (-1, out, d) := by cases c <;> rfl
    simp only [runStubs, hc, ih, List.length_cons, List.replicate_succ]

/-- `SetDiskPointer` on an open file: the seek it issues and what it returns. -/
theorem SetDiskPointer_of_open (ops : CoreFileOps σ) (d : CDisk σ) (f : σ)
    (i64DiskPos i64NewPos : Int) (hf : d.m_pFile = some f) (ho : ops.IsFileOpen f = true) :
    SetDiskPointer ops d i64DiskPos i64NewPos =
      if d.m_cDiskGeometry.BytesPerSector = 0 then .error Fault.divideByZero
      else
        .ok (if (ops.SetFilePointer
                  (toINT64 (toINT64 (i64DiskPos * d.m_cDiskGeometry.BytesPerSector)
                    + d.m_ui64StartSector)) i64NewPos f).1 then 0 else -1,
             toINT64 (Int.tdiv (ops.SetFilePointer
                  (toINT64 (toINT64 (i64DiskPos * d.m_cDiskGeometry.BytesPerSector)
                    + d.m_ui64StartSector)) i64NewPos f).2.1 d.m_cDiskGeometry.BytesPerSector
                - d.m_ui64StartSector),
             { d with
               m_pFile := some (ops.SetFilePointer
                  (toINT64 (toINT64 (i64DiskPos * d.m_cDiskGeometry.BytesPerSector)
                    + d.m_ui64StartSector)) i64NewPos f).2.2,
               ioTrace := d.ioTrace ++ [FileCall.SetFilePointer
                  (toINT64 (toINT64 (i64DiskPos * d.m_cDiskGeometry.BytesPerSector)
                    + d.m_ui64StartSector))] }) := by
  unfold SetDiskPointer
  simp only [hf, ho, Bool.not_true, Bool.false_eq_true, if_false]

/-- The seek to relative sector 0 on an open file with a sector size other than 0:
the file is asked for the byte `toINT64 m_ui64StartSector`. -/
theorem SetDiskPointer_zero_of_open (ops : CoreFileOps σ) (d : CDisk σ) (f : σ) (out : Int)
    (hf : d.m_pFile = some f) (ho : ops.IsFileOpen f = true)
    (hb : d.m_cDiskGeometry.BytesPerSector ≠ 0) :
    SetDiskPointer ops d 0 out =
      .ok (if (ops.SetFilePointer (toINT64 d.m_ui64StartSector) out f).1 then 0 else -1,
           toINT64 (Int.tdiv (ops.SetFilePointer (toINT64 d.m_ui64StartSector) out f).2.1
              d.m_cDiskGeometry.BytesPerSector - d.m_ui64StartSector),
           { d with
             m_pFile := some (ops.SetFilePointer (toINT64 d.m_ui64StartSector) out f).2.2,
             ioTrace := d.ioTrace ++ [FileCall.SetFilePointer (toINT64 d.m_ui64StartSector)] }) := by
  rw [SetDiskPointer_of_open ops d f 0 out hf ho, if_neg hb]
  have h0 : toINT64 (toINT64 (0 * (d.m_cDiskGeometry.BytesPerSector : Int))
      + (d.m_ui64StartSector : Int)) = toINT64 (d.m_ui64StartSector : Int) := by
    rw [Int.zero_mul]
    have hz : toINT64 0 = 0 := by decide
    rw [hz, Int.zero_add]
  rw [h0]

/-- The windowed open once the base open has returned 0 and the seek to relative
sector 0 has returned: the result is decided by the seek's result and the
position it reported, and the state is the one the seek left. -/
theorem OpenDiskWindow_of_seek (ops : CoreFileOps σ) (MAX_DRIVE_SUPPORT : Nat)
    (d d1 dF : CDisk σ) (ui64Offset ui64Length nDisk dwFlags : Nat) (r q : Int)
    (hopen : OpenDiskIndex ops MAX_DRIVE_SUPPORT d nDisk dwFlags = .ok (0, d1))
    (hseek : SetDiskPointer ops
      { d1 with m_ui64StartSector := ui64Offset, m_ui64DiskSize := ui64Length } 0 0
        = .ok (r, q, dF)) :
    OpenDiskWindow ops MAX_DRIVE_SUPPORT d ui64Offset ui64Length nDisk dwFlags
      = .ok (if r < 0 then -1 else if q = 0 then 0 else -1, dF) := by
  unfold OpenDiskWindow
  simp only [hopen, if_true, hseek]
  by_cases hr : r < 0
  · simp only [hr, if_true]
  · simp only [hr, if_false]

/-- The result code of the windowed open after a failed seek or a position other
than 0. -/
theorem window_result_of_mismatch (r q : Int) (h : r < 0 ∨ q ≠ 0) :
    (if r < 0 then (-1 : Int) else if q = 0 then 0 else -1) = -1 := by
  by_cases hr : r < 0
  · rw [if_pos hr]
  · rw [if_neg hr]
    rcases h with h | h
    · exact absurd h hr
    · rw [if_neg h]

/-- C10: for every window start `0 < offset < 2 ^ 63`, when the base open has
returned 0 with the file open and a resolved sector size of at least two
bytes, and the file repositions exactly to the byte offset the windowed open
asks for, the seek to relative sector 0 asks the file for byte `offset` and
computes the relative position `offset / bytesPerSector - offset` (floor
division), which is not 0, and the windowed open returns -1, in the state the
seek left. -/
theorem OpenDiskWindow_nonzero_offset_fails (ops : CoreFileOps σ) (MAX_DRIVE_SUPPORT : Nat)
    (d d1 : CDisk σ) (f1 : σ) (ui64Offset ui64Length nDisk dwFlags : Nat)
    (hpos : 0 < ui64Offset) (hlt : ui64Offset < 2 ^ 63)
    (hopen : OpenDiskIndex ops MAX_DRIVE_SUPPORT d nDisk dwFlags = .ok (0, d1))
    (hf : d1.m_pFile = some f1) (ho : ops.IsFileOpen f1 = true)
    (hbps : 2 ≤ d1.m_cDiskGeometry.BytesPerSector)
    (hexact : (ops.SetFilePointer ui64Offset 0 f1).2.1 = ui64Offset) :
    (ui64Offset : Int) / (d1.m_cDiskGeometry.BytesPerSector : Int) - (ui64Offset : Int) ≠ 0 ∧
    SetDiskPointer ops
        { d1 with m_ui64StartSector := ui64Offset, m_ui64DiskSize := ui64Length } 0 0
      = .ok (if (ops.SetFilePointer ui64Offset 0 f1).1 then 0 else -1,
             (ui64Offset : Int) / (d1.m_cDiskGeometry.BytesPerSector : Int) - (ui64Offset : Int),
             { d1 with m_pFile := some (ops.SetFilePointer ui64Offset 0 f1).2.2,
                       m_ui64StartSector := ui64Offset, m_ui64DiskSize := ui64Length,
                       ioTrace := d1.ioTrace ++ [FileCall.SetFilePointer ui64Offset] }) ∧
    OpenDiskWindow ops MAX_DRIVE_SUPPORT d ui64Offset ui64Length nDisk dwFlags
      = .ok (-1,
             { d1 with m_pFile := some (ops.SetFilePointer ui64Offset 0 f1).2.2,
                       m_ui64StartSector := ui64Offset, m_ui64DiskSize := ui64Length,
                       ioTrace := d1.ioTrace ++ [FileCall.SetFilePointer ui64Offset] }) := by
  have hne : (ui64Offset : Int) / (d1.m_cDiskGeometry.BytesPerSector : Int)
      - (ui64Offset : Int) ≠ 0 :=
    Int.ne_of_lt (div_sub_self_neg ui64Offset _ hpos hbps)
  have hb : d1.m_cDiskGeometry.BytesPerSector ≠ 0 := by omega
  have hto : toINT64 (ui64Offset : Int) = (ui64Offset : Int) :=
    toINT64_of_nonneg _ (Int.natCast_nonneg _) (by exact_mod_cast hlt)
  have hq : toINT64 (Int.tdiv (ui64Offset : Int) (d1.m_cDiskGeometry.BytesPerSector : Int)
      - (ui64Offset : Int))
      = (ui64Offset : Int) / (d1.m_cDiskGeometry.BytesPerSector : Int) - (ui64Offset : Int) := by
    rw [Int.tdiv_eq_ediv (Int.natCast_nonneg _) (Int.natCast_nonneg _)]
    have hn : (0:Int) ≤ (ui64Offset : Int) / (d1.m_cDiskGeometry.BytesPerSector : Int) :=
      Int.ediv_nonneg (Int.natCast_nonneg _) (Int.natCast_nonneg _)
    have hle : (ui64Offset : Int) / (d1.m_cDiskGeometry.BytesPerSector : Int)
        ≤ (ui64Offset : Int) := Int.ediv_le_self _ (Int.natCast_nonneg _)
    have hlt2 : (ui64Offset : Int) < 2 ^ 63 := by exact_mod_cast hlt
    unfold toINT64
    omega
  have hs := SetDiskPointer_zero_of_open ops
    { d1 with m_ui64StartSector := ui64Offset, m_ui64DiskSize := ui64Length } f1 0 hf ho hb
  simp only [hto, hexact, hq] at hs
  refine ⟨hne, hs, ?_⟩
  rw [OpenDiskWindow_of_seek ops MAX_DRIVE_SUPPORT d d1 _ ui64Offset ui64Length nDisk dwFlags
    _ _ hopen hs, window_result_of_mismatch _ _ (Or.inr hne)]

theorem OpenDiskWindow_nonzero_offset_fails_witness :
    (0 < 2048 ∧ 2048 < 2 ^ 63) ∧
      OpenDiskIndex (simOps (some (simGeometry 512))) 25 simDisk 0 GENERIC_READ
        = .ok (0, simOpened (simGeometry 512)) ∧
      SetDiskPointer (simOps (some (simGeometry 512)))
        { simOpened (simGeometry 512) with m_ui64StartSector := 2048, m_ui64DiskSize := 204800 }
        0 0 = .ok (0, -2044, simMisaligned) ∧
      OpenDiskWindow (simOps (some (simGeometry 512))) 25 simDisk 2048 204800 0 GENERIC_READ
        = .ok (-1, simMisaligned) :=
  have h := OpenDiskWindow_nonzero_offset_fails (simOps (some (simGeometry 512))) 25 simDisk
    (simOpened (simGeometry 512)) { isOpen := true, pointer := 0 } 2048 204800 0 GENERIC_READ
    (by decide) (by decide) (by rfl) (by rfl) (by rfl) (by decide) (by rfl)
  ⟨⟨by decide, by decide⟩, by rfl, h.2.1, h.2.2⟩

end DiskBoard
